import Mathlib

/-!
A shallow embedding of the context-resolution, menu, cascading-update,
publish-path and validator-ordering logic of the `rbl_pipe_houdini`
repository, together with proofs and refutations of its specified
properties.

Python conventions carried over by the embedding:

* machine values stored in Houdini parms and ShotGrid records are modelled
  by `PyVal` (int, str or None), with Python truthiness and `str()`/`int()`
  conversions made explicit;
* code that can raise is modelled in `Except PyErr`, one constructor per
  exception class that the modelled paths can raise;
* external collaborators (the ShotGrid client `sg_load`, the template/path
  client `sg_template`, the Houdini scene) are oracle fields of the state
  structures: their outputs are inputs of the modelled logic.
-/

namespace RblPipeHoudini

/-- The Python exception classes the modelled code paths can raise. -/
inductive PyErr where
  | operationFailed   -- hou.OperationFailed
  | valueError        -- ValueError, e.g. int() applied to a non-numeric string
  | typeError         -- TypeError, e.g. int(None)
  | unboundLocal      -- UnboundLocalError
  | indexError        -- IndexError
  | runtimeError      -- RuntimeError
  deriving DecidableEq, Repr

/-- A Python value as held by a parm or a ShotGrid record field. -/
inductive PyVal where
  | vint : Int → PyVal
  | vstr : String → PyVal
  | vnone : PyVal
  deriving DecidableEq, Repr

/-- Python truthiness of a `PyVal`: 0, "" and None are falsy. -/
def pyTruthy : PyVal → Bool
  | .vint n => n != 0
  | .vstr s => s != ""
  | .vnone => false

/-- Python `str()` of a `PyVal` (`str(None)` is the string "None"). -/
def pyStr : PyVal → String
  | .vint n => toString n
  | .vstr s => s
  | .vnone => "None"

/-- Decimal digits folded into a number, failing on a non-digit. -/
def parseNatAux : List Char → Nat → Option Nat
  | [], acc => some acc
  | c :: rest, acc =>
    if c.isDigit then parseNatAux rest (acc * 10 + (c.toNat - 48)) else none

/-- The integers Python's `int()` accepts from a string: an optional minus
sign followed by one or more decimal digits (whitespace trimming and
underscore separators are not modelled). Structural recursion over the
character list, so it evaluates by kernel reduction (`String.toInt?` does
not). -/
def strToInt? (s : String) : Option Int :=
  match s.toList with
  | [] => none
  | ['-'] => none
  | '-' :: c :: rest => (parseNatAux (c :: rest) 0).map (fun n => -(n : Int))
  | l => (parseNatAux l 0).map (fun n => (n : Int))

/-- Python `int()` of a `PyVal`: ints pass through, strings are parsed
(ValueError when non-numeric), None raises TypeError. -/
def pyInt : PyVal → Except PyErr Int
  | .vint n => .ok n
  | .vstr s =>
    match strToInt? s with
    | some n => .ok n
    | none => .error .valueError
  | .vnone => .error .typeError

/-- Python truthiness of an optional selection string (None and "" falsy). -/
def selTruthy : Option String → Bool
  | none => false
  | some s => s != ""

/-- Python `int()` applied to an optional selection string. -/
def pyIntOfSel : Option String → Except PyErr Int
  | none => .error .typeError
  | some s =>
    match strToInt? s with
    | some n => .ok n
    | none => .error .valueError

/-- The parms of a Houdini node, as name/value pairs. -/
abbrev Parms := List (String × PyVal)

/-- `hou.Node.evalParm`: the parm's evaluated value, raising
hou.OperationFailed when the node has no parm of that name. -/
def evalParmE (parms : Parms) (name : String) : Except PyErr PyVal :=
  match parms.lookup name with
  | some v => .ok v
  | none => .error .operationFailed

/-! ## shotgun/context.py — HoudiniSGContext -/

/-- The scene-globals node's parms, read by `task_id_from_globals`. -/
structure GlobalsNode where
  context : String
  task : String
  asset : String
  shot : String
  deriving DecidableEq, Repr

/-- The ShotGrid lookup client (`rbl_pipe_sg.load.ShotgunLoad`): an external
service; every lookup may return "not found" (None). -/
structure SGLoad where
  asset_id_from_name : String → Option Int
  shot_id_from_name : String → Option Int
  task_id_from_name : String → Option Int → Option Int → Option Int

/-- The state a `HoudiniSGContext` evaluation reads: the SG node's parms, the
cached globals node found at initialisation (None when the scene has none),
the lookup client, and the task id the template client derives from the
current hip-file path (`sg_template.task_id_from_path(hou.hipFile.path())`). -/
structure CtxState where
  node_parms : Parms
  globals_node : Option GlobalsNode
  sg_load : SGLoad
  hip_task_id : Option Int

/-- `HoudiniSGContext.get_globals_node`, re-run on a scene that has not
changed since initialisation: yields the cached globals node. -/
def HoudiniSGContext.get_globals_node (st : CtxState) : Option GlobalsNode :=
  st.globals_node

/-- `HoudiniSGContext.task_id_from_custom`: reads the override toggle and the
custom task id inside `try: ... except hou.OperationFailed`, so only
hou.OperationFailed is swallowed (yielding None); any other exception
propagates. -/
def HoudiniSGContext.task_id_from_custom (st : CtxState) :
    Except PyErr (Option Int) :=
  let body : Except PyErr (Option Int) := do
    let ov ← evalParmE st.node_parms "override_custom_taskid"
    if pyTruthy ov then
      let cv ← evalParmE st.node_parms "custom_taskid"
      let n ← pyInt cv
      pure (some n)
    else
      pure none
  match body with
  | .error .operationFailed => .ok none   -- except hou.OperationFailed: logged, falls to `return None`
  | r => r

/-- `HoudiniSGContext.task_id_from_globals`. Faithful to the source: the
"asset" branch assigns only the local `asset_id` and the "shot" branch only
`shot_id`, yet the final `task_id_from_name(..., asset_id=asset_id,
shot_id=shot_id)` call reads both locals, so whichever branch ran raises
UnboundLocalError at that call; only an unrecognised context value returns
None cleanly. -/
def HoudiniSGContext.task_id_from_globals (st : CtxState) :
    Except PyErr (Option Int) :=
  match HoudiniSGContext.get_globals_node st with
  | none => .ok none
  | some g =>
    let context := g.context
    if context == "asset" then
      let _asset_id := st.sg_load.asset_id_from_name g.asset
      -- the call reads the local `shot_id`, never assigned on this branch
      .error .unboundLocal
    else if context == "shot" then
      let _shot_id := st.sg_load.shot_id_from_name g.shot
      -- the call reads the local `asset_id`, never assigned on this branch
      .error .unboundLocal
    else
      .ok none

/-- `HoudiniSGContext.task_id_from_hip`: what the template client derives
from the current hip-file path. -/
def HoudiniSGContext.task_id_from_hip (st : CtxState) : Option Int :=
  st.hip_task_id

/-- Python truthiness of the custom-task-id result (None and 0 falsy). -/
def optTruthy : Option Int → Bool
  | none => false
  | some n => n != 0

/-- `HoudiniSGContext.raw_task_id`: custom override first; `elif
self.globals_node:` — the cached globals node's presence, not the success of
the globals lookup, decides the branch — and only `else` falls back to the
hip-file path. -/
def HoudiniSGContext.raw_task_id (st : CtxState) : Except PyErr (Option Int) := do
  let custom_task_id ← HoudiniSGContext.task_id_from_custom st
  if optTruthy custom_task_id then
    pure custom_task_id
  else if st.globals_node.isSome then
    HoudiniSGContext.task_id_from_globals st
  else
    pure (HoudiniSGContext.task_id_from_hip st)

/-! ## menu/nodemenu.py and shotgun/sgmenu.py — HoudiniHDAMenu / SGMenu

The menus the node code regenerates are all `SGMenu` instances (a subclass
of `HoudiniHDAMenu` that overrides `get_selection` with a context-aware,
`force`-accepting version), so `generate_menu`'s
`self.get_selection(force=force)` call dispatches to `SGMenu.get_selection`.
-/

/-- A ShotGrid record, as a Python dict. -/
abbrev Record := List (String × PyVal)

/-- Python `dict.get(key)`: the stored value, or None when absent. -/
def dictGet (d : Record) (k : String) : PyVal := (d.lookup k).getD .vnone

/-- The state of one `SGMenu` instance together with what it reads from its
node and context: the backing parm's current value (`none` models a parm
object that no longer exists), the eval of the `override_<parm>` parm
(`none` models no such parm), the stored flat menu list (alternating
name/label), the in-memory `self.value`, the owning node's
`isEditableInsideLockedHDA()` flag, the value
`sg_context.parm_value_from_context(parm_name)` yields (`none` models
Python None), and `sg_context.legacy_auto_mode()`. -/
structure MenuState where
  parm : Option String
  override_parm : Option Int
  menu : List String
  value : Option PyVal
  editable : Bool
  context_value : Option PyVal
  legacy_auto : Bool
  deriving DecidableEq, Repr

/-- `SGMenu.is_overriden`: the override parm's eval when the parm exists,
else False in legacy auto mode, else True. -/
def SGMenu.is_overriden (st : MenuState) : Bool :=
  match st.override_parm with
  | some v => v == 1
  | none => if st.legacy_auto then false else true

/-- `HoudiniHDAMenu.get_selection`: the parm's value when truthy and not the
literal "None", else the first stored menu entry's name, else None. -/
def HoudiniHDAMenu.get_selection (st : MenuState) : Option String :=
  match st.parm with
  | none => none   -- warning logged, returns None
  | some selection =>
    if selection != "" && selection != "None" then some selection
    else
      match st.menu with
      | [] => none
      | m0 :: _ => some m0

/-- `SGMenu.get_selection(force)`: the context-derived value when it is
truthy and either `force` is set or the menu is not overridden; otherwise
the base class's selection. -/
def SGMenu.get_selection (st : MenuState) (force : Bool) : Option String :=
  let overriden := SGMenu.is_overriden st
  let selection := st.context_value
  let truthy :=
    match selection with
    | some v => pyTruthy v
    | none => false
  if force && truthy then selection.map pyStr
  else if !overriden && truthy then selection.map pyStr
  else HoudiniHDAMenu.get_selection st

/-- `HoudiniHDAMenu.set_value`: always records the value in memory; writes
`str(value)` to the backing parm only when the node is editable. -/
def HoudiniHDAMenu.set_value (st : MenuState) (value : PyVal) : MenuState :=
  let st1 := { st with value := some value }
  if st1.editable then { st1 with parm := some (pyStr value) } else st1

/-- Python `menu[::2]`: every other element, i.e. the entry names (keys). -/
def everyOther : List String → List String
  | [] => []
  | [x] => [x]
  | x :: _ :: rest => x :: everyOther rest

/-- `HoudiniHDAMenu.generate_menu(data_dicts, name, label, reverse, force)`:

* reads the current selection (`SGMenu.get_selection`, see above) and the
  node's editability;
* when not editable: a truthy selection filters the records to those whose
  `str(item.get(name))` equals it; a falsy selection keeps `data_dicts[0]`
  only, raising IndexError when the collection is empty;
* optionally reverses, then builds the flat name/label list;
* writes the selection back if it is among the new names, else the first
  new name if any (the trailing showExpression UI refresh carries no
  state). -/
def HoudiniHDAMenu.generate_menu (st : MenuState) (data_dicts : List Record)
    (name label : String) (reverse force : Bool) : Except PyErr MenuState :=
  let selection := SGMenu.get_selection st force
  let editable := st.editable
  let dsE : Except PyErr (List Record) :=
    if !editable then
      if selTruthy selection then
        .ok (data_dicts.filter fun item =>
          pyStr (dictGet item name) == selection.getD "")
      else
        match data_dicts with
        | [] => .error .indexError
        | d :: _ => .ok [d]
    else .ok data_dicts
  match dsE with
  | .error e => .error e
  | .ok ds0 =>
    let ds1 := if reverse then ds0.reverse else ds0
    let menu := ds1.foldr
      (fun item acc => pyStr (dictGet item name) :: pyStr (dictGet item label) :: acc) []
    let st1 : MenuState := { st with menu := menu }
    match selection with
    | some s =>
      if s ∈ everyOther menu then .ok (HoudiniHDAMenu.set_value st1 (.vstr s))
      else if menu.isEmpty then .ok st1
      else .ok (HoudiniHDAMenu.set_value st1 (.vstr (menu.headD "")))
    | none =>
      if menu.isEmpty then .ok st1
      else .ok (HoudiniHDAMenu.set_value st1 (.vstr (menu.headD "")))

/-! ## shotgun/node.py — ShotgunNode, the asset-chain cascading update

`update_asset_types_menu → update_asset_menu → update_step_menu →
update_task_menu → update_version_menu`, each step reading the freshly
regenerated selection of its predecessor as the filter for its own data
fetch. The ShotGrid getters are oracle fields of `SGLoadEnv` (the external
data source, fixed across a cascade). -/

/-- The ShotGrid data the asset-chain cascade fetches. -/
structure SGLoadEnv where
  get_asset_types : List Record
  get_assets : String → List Record
  get_asset_steps : Int → List Record
  get_asset_tasks : Int → Int → List Record
  get_versions : Int → List Record

/-- The per-node state the asset-chain cascade touches: the chained menus,
the template menu and template name lists (for `in_asset_mode` /
`in_shot_mode` inside `update_version_menu`), the shot-task menu (read by
the shot branch of `update_version_menu`), the version menu, and the eval
of the node's `latest` parm (`none` models a node without that parm). -/
structure NodeState where
  asset_type_menu : MenuState
  asset_menu : MenuState
  step_menu : MenuState
  task_menu : MenuState
  template_menu : MenuState
  shot_task_menu : MenuState
  version_menu : MenuState
  asset_templates : List String
  shot_templates : List String
  latest_parm : Option Int

/-- `ShotgunNode.in_asset_mode`: is the template menu's selection among the
node's asset templates (Python's `None in [..]` is False). -/
def ShotgunNode.in_asset_mode (st : NodeState) : Bool :=
  match SGMenu.get_selection st.template_menu false with
  | some t => st.asset_templates.contains t
  | none => false

/-- `ShotgunNode.in_shot_mode`: is the template menu's selection among the
node's shot templates. -/
def ShotgunNode.in_shot_mode (st : NodeState) : Bool :=
  match SGMenu.get_selection st.template_menu false with
  | some t => st.shot_templates.contains t
  | none => false

/-- The `if selected: selected = int(selected)` idiom on a menu selection:
None and "" stay falsy untouched; a non-empty string is parsed by `int()`
(ValueError when non-numeric). `none` in the result stands for the falsy
outcomes (None, "", and later a parsed 0 is falsy too, see `optTruthy`). -/
def parseSel (s : Option String) : Except PyErr (Option Int) :=
  match s with
  | none => .ok none
  | some str =>
    if str == "" then .ok none
    else
      match strToInt? str with
      | some n => .ok (some n)
      | none => .error .valueError

/-- `ShotgunNode.update_version_menu`: skipped when the node has no
`latest` parm; otherwise, when forced or `latest` is off, regenerates the
version menu (reversed) from the versions of the selected asset or shot
task, raising RuntimeError when the node is in neither mode.
(`menus_updated` is a no-op on the base class.) -/
def ShotgunNode.update_version_menu (env : SGLoadEnv) (st : NodeState)
    (force : Bool) : Except PyErr NodeState :=
  match st.latest_parm with
  | none => .ok st
  | some latest =>
    if force || latest == 0 then
      let taskE : Except PyErr (Option String) :=
        if ShotgunNode.in_asset_mode st then
          .ok (SGMenu.get_selection st.task_menu false)
        else if ShotgunNode.in_shot_mode st then
          .ok (SGMenu.get_selection st.shot_task_menu false)
        else .error .runtimeError
      match taskE with
      | .error e => .error e
      | .ok task =>
        match pyIntOfSel task with
        | .error e => .error e
        | .ok task_id =>
          let versions := env.get_versions task_id
          match HoudiniHDAMenu.generate_menu st.version_menu versions
              "version_number" "version_number" true force with
          | .error e => .error e
          | .ok vm => .ok { st with version_menu := vm }
    else .ok st

/-- `ShotgunNode.update_task_menu`: fetches the tasks of the selected asset
and step (empty when either selection is falsy), regenerates the task menu,
then updates the version menu. -/
def ShotgunNode.update_task_menu (env : SGLoadEnv) (st : NodeState)
    (force : Bool) : Except PyErr NodeState :=
  match parseSel (SGMenu.get_selection st.asset_menu false) with
  | .error e => .error e
  | .ok selected_asset =>
    match parseSel (SGMenu.get_selection st.step_menu false) with
    | .error e => .error e
    | .ok selected_step =>
      let tasks :=
        if optTruthy selected_asset && optTruthy selected_step then
          env.get_asset_tasks (selected_asset.getD 0) (selected_step.getD 0)
        else []
      match HoudiniHDAMenu.generate_menu st.task_menu tasks "id" "content"
          false force with
      | .error e => .error e
      | .ok tm =>
        ShotgunNode.update_version_menu env { st with task_menu := tm } force

/-- `ShotgunNode.update_step_menu`: fetches the steps of the selected asset
(empty when the selection is falsy), regenerates the step menu, then
cascades to the task menu. -/
def ShotgunNode.update_step_menu (env : SGLoadEnv) (st : NodeState)
    (force : Bool) : Except PyErr NodeState :=
  match parseSel (SGMenu.get_selection st.asset_menu false) with
  | .error e => .error e
  | .ok selected_asset =>
    let steps :=
      if optTruthy selected_asset then
        env.get_asset_steps (selected_asset.getD 0)
      else []
    match HoudiniHDAMenu.generate_menu st.step_menu steps "step.Step.id"
        "step.Step.code" false force with
    | .error e => .error e
    | .ok sm =>
      ShotgunNode.update_task_menu env { st with step_menu := sm } force

/-- `ShotgunNode.update_asset_menu`: fetches the assets of the selected
asset type (empty when the selection is falsy), regenerates the asset menu,
then cascades to the step menu. -/
def ShotgunNode.update_asset_menu (env : SGLoadEnv) (st : NodeState)
    (force : Bool) : Except PyErr NodeState :=
  let asset_type := SGMenu.get_selection st.asset_type_menu false
  let assets :=
    if selTruthy asset_type then env.get_assets (asset_type.getD "") else []
  match HoudiniHDAMenu.generate_menu st.asset_menu assets "id" "code"
      false force with
  | .error e => .error e
  | .ok am =>
    ShotgunNode.update_step_menu env { st with asset_menu := am } force

/-- `ShotgunNode.update_asset_types_menu`: the head of the asset chain —
regenerates the asset-type menu from `get_asset_types`, then cascades down
through asset, step, task and version menus. -/
def ShotgunNode.update_asset_types_menu (env : SGLoadEnv) (st : NodeState)
    (force : Bool) : Except PyErr NodeState :=
  let asset_types := env.get_asset_types
  match HoudiniHDAMenu.generate_menu st.asset_type_menu asset_types "name"
      "name" false force with
  | .error e => .error e
  | .ok atm =>
    ShotgunNode.update_asset_menu env { st with asset_type_menu := atm } force

/-! ## shotgun/usdpublishnode.py — ShotgunUSDPublishNode -/

/-- Calls into the external template/publish services, recorded so the
theorems can speak about which services a routine invoked. -/
inductive SvcCall where
  | validateTemplate : Option String → SvcCall
  | nextVersion : Option String → Int → SvcCall
  | outputPath : Option String → Int → Int → SvcCall
  | publishShotUsd : Option Int → SvcCall
  deriving DecidableEq, Repr

/-- The external template client (`rbl_pipe_sg.template.SGTemplate`):
`validate_template_list` raises SgtkTemplateNotFoundException exactly when
`template_found` is false; the other two yield the next version number and
the output path. -/
structure TmplEnv where
  template_found : Option String → Bool
  next_version : Option String → Int → Int
  out_path : Option String → Int → Int → String

/-- The publish-node state the modelled methods read and write: the sticky
`missing_template` flag, the cached output fields, the template/task/
shot-task menus, the node's template name lists, and the
`sg_load.shot_id_from_task_id` lookup (read by the dead code after the
raise in `auto_generate_shot_usd`). -/
structure PubState where
  missing_template : Bool
  output_version : Option Int
  output_path : Option String
  output_root : Option String
  template_menu : MenuState
  task_menu : MenuState
  shot_task_menu : MenuState
  asset_templates : List String
  shot_templates : List String
  shot_id_from_task : Int → Option Int

/-- `ShotgunNode.selected_template` (inherited): the template parm's eval,
falling back to the parm's first menu item, else None. -/
def ShotgunUSDPublishNode.selected_template (st : PubState) : Option String :=
  let template := st.template_menu.parm.getD ""
  if template != "" then some template
  else
    match everyOther st.template_menu.menu with
    | m :: _ => some m
    | [] => none

/-- `ShotgunNode.in_asset_mode` on the publish node. -/
def ShotgunUSDPublishNode.in_asset_mode (st : PubState) : Bool :=
  match SGMenu.get_selection st.template_menu false with
  | some t => st.asset_templates.contains t
  | none => false

/-- `ShotgunNode.in_shot_mode` on the publish node. -/
def ShotgunUSDPublishNode.in_shot_mode (st : PubState) : Bool :=
  match SGMenu.get_selection st.template_menu false with
  | some t => st.shot_templates.contains t
  | none => false

/-- `ShotgunNode.selected_task` (inherited): the asset- or shot-task menu's
selection, raising RuntimeError when the node is in neither mode. -/
def ShotgunUSDPublishNode.selected_task (st : PubState) :
    Except PyErr (Option String) :=
  if ShotgunUSDPublishNode.in_asset_mode st then
    .ok (SGMenu.get_selection st.task_menu false)
  else if ShotgunUSDPublishNode.in_shot_mode st then
    .ok (SGMenu.get_selection st.shot_task_menu false)
  else .error .runtimeError

/-- Python `os.path.dirname` for forward-slash paths. -/
def dirname (p : String) : String :=
  match p.splitOn "/" with
  | [] => ""
  | [_] => ""
  | parts => String.intercalate "/" parts.dropLast

/-- `ShotgunUSDPublishNode.update_output_path`, returning the new state and
the external service calls made: returns at once when `missing_template` is
already set; validates the selected template, setting the sticky flag on
SgtkTemplateNotFoundException; returns when no task is selected; otherwise
computes and stores version, path and root (the three pressButton calls are
UI refreshes with no modelled state). -/
def ShotgunUSDPublishNode.update_output_path (env : TmplEnv) (st : PubState) :
    Except PyErr (PubState × List SvcCall) :=
  if st.missing_template then .ok (st, [])
  else
    let template_name := ShotgunUSDPublishNode.selected_template st
    if !(env.template_found template_name) then
      .ok ({ st with missing_template := true }, [.validateTemplate template_name])
    else
      match ShotgunUSDPublishNode.selected_task st with
      | .error e => .error e
      | .ok task_sel =>
        if !(selTruthy task_sel) then
          .ok (st, [.validateTemplate template_name])
        else
          match pyIntOfSel task_sel with
          | .error e => .error e
          | .ok task_id =>
            let v := env.next_version template_name task_id
            let p := env.out_path template_name task_id v
            .ok ({ st with
                    output_version := some v,
                    output_path := some p,
                    output_root := some (dirname p) },
                 [.validateTemplate template_name,
                  .nextVersion template_name task_id,
                  .outputPath template_name task_id v])

/-- `ShotgunUSDPublishNode.auto_generate_shot_usd`, returning the publish
calls made. Faithful to the source's indentation: the shot-id lookup and
`shotusd.publish_shot_usd` call sit inside the `if not self.in_shot_mode()`
block *after* its `raise RuntimeError`, so the `Except` bind short-circuits
before reaching them, and the in-shot-mode path performs nothing at all. -/
def ShotgunUSDPublishNode.auto_generate_shot_usd (st : PubState) :
    Except PyErr (List SvcCall) := do
  let task_sel ← ShotgunUSDPublishNode.selected_task st
  let task_id ← pyIntOfSel task_sel
  if !(ShotgunUSDPublishNode.in_shot_mode st) then do
    let _ ← (Except.error .runtimeError : Except PyErr Unit)
    -- usdpublishnode.py lines 214-219: unreachable behind the raise above
    let shot_id := st.shot_id_from_task task_id
    pure [SvcCall.publishShotUsd shot_id]
  else
    pure []

/-! ## pyblish plugins — declared validator order keys

The four node-validator plugins of `pyblish/plugins/details.py`,
`pyblish/plugins/ispublished.py`, `pyblish/plugins/simple.py` and
`pyblish/nodevalidator.py`, reduced to their declared label and order key.
Order keys are exact rationals here; the Python floats 0.1/0.2 carry the
same ordering. -/

structure PyblishPlugin where
  label : String
  order : ℚ
  deriving DecidableEq, Repr

/-- Modelled from the spec: `pyblish.api.ValidatorOrder`, the validator
stage's base order key in the external pyblish framework. Its absolute
value is irrelevant to the ordering claims; the offsets below are the
source's. -/
def ValidatorOrder : ℚ := 1

/-- `NodeDetails` (details.py): order `ValidatorOrder - 0.1`. -/
def NodeDetails : PyblishPlugin :=
  { label := "Houdini Node - Details", order := ValidatorOrder - 0.1 }

/-- `IsPublished` (ispublished.py): order `ValidatorOrder`. -/
def IsPublished : PyblishPlugin :=
  { label := "Houdini Node - Published", order := ValidatorOrder }

/-- `SimpleNodeValidator` (simple.py): order `ValidatorOrder + 0.1`. -/
def SimpleNodeValidator : PyblishPlugin :=
  { label := "Houdini Node - Simple Validator", order := ValidatorOrder + 0.1 }

/-- `ValidateNode` (nodevalidator.py): order `ValidatorOrder + 0.2`. -/
def ValidateNode : PyblishPlugin :=
  { label := "Houdini Validate Node", order := ValidatorOrder + 0.2 }

/-- Stable insertion of a plugin into a list sorted by ascending order key:
it goes before the first element whose key is not smaller, so an
equal-keyed element already present stays behind it only if it compared
strictly smaller — ties keep declaration order. -/
def insertPlugin (p : PyblishPlugin) : List PyblishPlugin → List PyblishPlugin
  | [] => [p]
  | q :: qs => if q.order < p.order then q :: insertPlugin p qs else p :: q :: qs

/-- Modelled from the spec: pyblish executes registered plugins in ascending
declared order key, ties broken by declaration order — a stable sort of the
declaration list by key. -/
def executionOrder : List PyblishPlugin → List PyblishPlugin
  | [] => []
  | p :: ps => insertPlugin p (executionOrder ps)

/-! ## Theorems -/

/-- A lookup client whose every lookup misses, for concrete context states. -/
def sgLoadNull : SGLoad :=
  { asset_id_from_name := fun _ => none,
    shot_id_from_name := fun _ => none,
    task_id_from_name := fun _ _ _ => none }

/-- C1 (amended): precedence of `raw_task_id` as the code implements it —
a non-zero custom override wins; otherwise, when a globals node is present
in the scene, the globals lookup's outcome is returned with no fallback to
the hip path; only when no globals node exists is the hip-path-derived task
id returned; and when that also yields nothing the result is None. -/
theorem raw_task_id_precedence (st : CtxState) :
    (∀ n : Int, HoudiniSGContext.task_id_from_custom st = .ok (some n) →
      n ≠ 0 → HoudiniSGContext.raw_task_id st = .ok (some n)) ∧
    (HoudiniSGContext.task_id_from_custom st = .ok none →
      st.globals_node.isSome = true →
      HoudiniSGContext.raw_task_id st = HoudiniSGContext.task_id_from_globals st) ∧
    (HoudiniSGContext.task_id_from_custom st = .ok none →
      st.globals_node = none →
      HoudiniSGContext.raw_task_id st = .ok (HoudiniSGContext.task_id_from_hip st)) ∧
    (HoudiniSGContext.task_id_from_custom st = .ok none →
      st.globals_node = none → st.hip_task_id = none →
      HoudiniSGContext.raw_task_id st = .ok none) := by
  refine ⟨?_, ?_, ?_, ?_⟩
  · intro n h hn
    simp [HoudiniSGContext.raw_task_id, h, optTruthy, hn, bind, Except.bind, pure, Except.pure]
  · intro h hg
    simp [HoudiniSGContext.raw_task_id, h, optTruthy, hg, bind, Except.bind, pure, Except.pure]
  · intro h hg
    simp [HoudiniSGContext.raw_task_id, h, optTruthy, hg, bind, Except.bind, pure, Except.pure]
  · intro h hg hh
    simp [HoudiniSGContext.raw_task_id, h, optTruthy, hg, hh, bind, Except.bind, pure, Except.pure,
      HoudiniSGContext.task_id_from_hip]

/-- The concrete context refuting C1 as stated: override disabled, a globals
node present whose context parm is neither "asset" nor "shot", and a hip
path that resolves to task 3. -/
def ctxC1 : CtxState :=
  { node_parms := [("override_custom_taskid", .vint 0)],
    globals_node := some { context := "other", task := "main", asset := "", shot := "" },
    sg_load := sgLoadNull,
    hip_task_id := some 3 }

/-- C1 counterexample: on `ctxC1` the custom source yields nothing and the
hip path resolves to task 3, yet `raw_task_id` returns None — the presence
of the globals node suppresses the hip-path fallback, contradicting the
claimed yield-based precedence. -/
theorem raw_task_id_no_hip_fallback_cex :
    HoudiniSGContext.task_id_from_custom ctxC1 = .ok none ∧
    HoudiniSGContext.task_id_from_hip ctxC1 = some 3 ∧
    HoudiniSGContext.raw_task_id ctxC1 = .ok none ∧
    HoudiniSGContext.raw_task_id ctxC1 ≠ .ok (some 3) := by
  refine ⟨rfl, rfl, rfl, fun h => ?_⟩
  rw [show HoudiniSGContext.raw_task_id ctxC1 = .ok none from rfl] at h
  exact Option.noConfusion (Except.ok.inj h)

/-- C6 (amended): only hou.OperationFailed is swallowed by
`task_id_from_custom`. When a parm is missing (evalParm raises
hou.OperationFailed) the failure is swallowed, None is returned and
resolution falls through to the next precedence source; but a custom value
that `int()` cannot parse raises ValueError, which is not caught and
propagates out of `raw_task_id` instead of falling through. -/
theorem task_id_from_custom_error_handling (st : CtxState) :
    (st.node_parms.lookup "override_custom_taskid" = none →
      HoudiniSGContext.task_id_from_custom st = .ok none ∧
      HoudiniSGContext.raw_task_id st =
        (if st.globals_node.isSome then HoudiniSGContext.task_id_from_globals st
         else .ok (HoudiniSGContext.task_id_from_hip st))) ∧
    (∀ v, st.node_parms.lookup "override_custom_taskid" = some v →
      pyTruthy v = true → st.node_parms.lookup "custom_taskid" = none →
      HoudiniSGContext.task_id_from_custom st = .ok none) ∧
    (∀ v s, st.node_parms.lookup "override_custom_taskid" = some v →
      pyTruthy v = true → st.node_parms.lookup "custom_taskid" = some (.vstr s) →
      strToInt? s = none →
      HoudiniSGContext.task_id_from_custom st = .error .valueError ∧
      HoudiniSGContext.raw_task_id st = .error .valueError) := by
  refine ⟨?_, ?_, ?_⟩
  · intro h
    have hc : HoudiniSGContext.task_id_from_custom st = .ok none := by
      simp [HoudiniSGContext.task_id_from_custom, evalParmE, h, bind, Except.bind, pure, Except.pure]
    refine ⟨hc, ?_⟩
    by_cases hg : st.globals_node.isSome
    · simp [HoudiniSGContext.raw_task_id, hc, optTruthy, hg, bind, Except.bind, pure, Except.pure]
    · simp [HoudiniSGContext.raw_task_id, hc, optTruthy, hg, bind, Except.bind, pure, Except.pure]
  · intro v h hv hc
    simp [HoudiniSGContext.task_id_from_custom, evalParmE, h, hv, hc, bind, Except.bind, pure, Except.pure]
  · intro v s h hv hc hs
    have hcu : HoudiniSGContext.task_id_from_custom st = .error .valueError := by
      simp [HoudiniSGContext.task_id_from_custom, evalParmE, h, hv, hc, pyInt, hs,
        bind, Except.bind, pure, Except.pure]
    exact ⟨hcu, by simp [HoudiniSGContext.raw_task_id, hcu, bind, Except.bind, pure, Except.pure]⟩

/-- The concrete context refuting C6 as stated: the override toggle is on
and the custom task id is the non-numeric string "abc". -/
def ctxC6 : CtxState :=
  { node_parms := [("override_custom_taskid", .vint 1), ("custom_taskid", .vstr "abc")],
    globals_node := none,
    sg_load := sgLoadNull,
    hip_task_id := some 3 }

/-- C6 counterexample: with the override enabled and a non-numeric custom
value, `int()` raises ValueError, which `except hou.OperationFailed` does
not catch: `raw_task_id` propagates the exception instead of falling
through to the hip path (which would have yielded task 3). -/
theorem task_id_from_custom_value_error_cex :
    HoudiniSGContext.task_id_from_custom ctxC6 = .error .valueError ∧
    HoudiniSGContext.raw_task_id ctxC6 = .error .valueError ∧
    HoudiniSGContext.raw_task_id ctxC6 ≠ .ok (some 3) := by
  refine ⟨rfl, rfl, fun h => ?_⟩
  rw [show HoudiniSGContext.raw_task_id ctxC6 = .error .valueError from rfl] at h
  exact Except.noConfusion h

/-! ### Menu helper lemmas -/

@[simp]
theorem set_value_value_eq (st : MenuState) (v : PyVal) :
    (HoudiniHDAMenu.set_value st v).value = some v := by
  unfold HoudiniHDAMenu.set_value
  by_cases h : st.editable <;> simp [h]

@[simp]
theorem set_value_menu_eq (st : MenuState) (v : PyVal) :
    (HoudiniHDAMenu.set_value st v).menu = st.menu := by
  unfold HoudiniHDAMenu.set_value
  by_cases h : st.editable <;> simp [h]

@[simp]
theorem set_value_editable_eq (st : MenuState) (v : PyVal) :
    (HoudiniHDAMenu.set_value st v).editable = st.editable := by
  unfold HoudiniHDAMenu.set_value
  by_cases h : st.editable <;> simp [h]

@[simp]
theorem set_value_override_eq (st : MenuState) (v : PyVal) :
    (HoudiniHDAMenu.set_value st v).override_parm = st.override_parm := by
  unfold HoudiniHDAMenu.set_value
  by_cases h : st.editable <;> simp [h]

@[simp]
theorem set_value_context_eq (st : MenuState) (v : PyVal) :
    (HoudiniHDAMenu.set_value st v).context_value = st.context_value := by
  unfold HoudiniHDAMenu.set_value
  by_cases h : st.editable <;> simp [h]

@[simp]
theorem set_value_legacy_eq (st : MenuState) (v : PyVal) :
    (HoudiniHDAMenu.set_value st v).legacy_auto = st.legacy_auto := by
  unfold HoudiniHDAMenu.set_value
  by_cases h : st.editable <;> simp [h]

theorem set_value_parm_eq (st : MenuState) (v : PyVal) :
    (HoudiniHDAMenu.set_value st v).parm =
      (if st.editable then some (pyStr v) else st.parm) := by
  unfold HoudiniHDAMenu.set_value
  by_cases h : st.editable <;> simp [h]

/-- C8: `set_value(v)` always updates the in-memory model value to `v`, and
writes the bound parm (to `str(v)`) exactly when the owning node is
editable, leaving the parm untouched otherwise; the menu contents are never
affected. -/
theorem set_value_memory_always_parm_iff_editable (st : MenuState) (v : PyVal) :
    (HoudiniHDAMenu.set_value st v).value = some v ∧
    (HoudiniHDAMenu.set_value st v).parm =
      (if st.editable then some (pyStr v) else st.parm) ∧
    (HoudiniHDAMenu.set_value st v).menu = st.menu := by
  unfold HoudiniHDAMenu.set_value
  by_cases h : st.editable <;> simp [h]

/-- C10: a non-editable menu whose current selection is falsy crashes with
IndexError when regenerated from an empty record collection — the code
unconditionally takes `data_dicts[0]` — instead of producing an empty
menu. -/
theorem generate_menu_empty_non_editable_indexerror (st : MenuState)
    (name label : String) (rev force : Bool) (hed : st.editable = false)
    (hsel : selTruthy (SGMenu.get_selection st force) = false) :
    HoudiniHDAMenu.generate_menu st [] name label rev force =
      .error .indexError := by
  unfold HoudiniHDAMenu.generate_menu
  simp [hed, hsel]

/-- A non-editable menu with an empty backing parm, an empty stored menu and
no context value: its selection is falsy. -/
def menuC10 : MenuState :=
  { parm := some "", override_parm := some 1, menu := [], value := none,
    editable := false, context_value := none, legacy_auto := false }

/-- C10 witness: the IndexError at the concrete state `menuC10`. -/
theorem generate_menu_empty_non_editable_indexerror_witness :
    HoudiniHDAMenu.generate_menu menuC10 [] "id" "label" false false =
      .error .indexError :=
  generate_menu_empty_non_editable_indexerror menuC10 "id" "label" false false
    rfl rfl

/-- C2 (amended): after `generate_menu`, if the previous selection is among
the new entry names the value is set to it; otherwise, if there are new
entries, the value is set to the first new name; but when the new entry
list is empty no selection write happens at all — value and parm are left
exactly as they were (not emptied). -/
theorem generate_menu_selection_policy (st : MenuState) (ds : List Record)
    (name label : String) (rev force : Bool) (st' : MenuState)
    (h : HoudiniHDAMenu.generate_menu st ds name label rev force = .ok st') :
    (∀ s, SGMenu.get_selection st force = some s → s ∈ everyOther st'.menu →
      st'.value = some (.vstr s)) ∧
    ((∀ s, SGMenu.get_selection st force = some s → s ∉ everyOther st'.menu) →
      st'.menu ≠ [] → st'.value = some (.vstr (st'.menu.headD ""))) ∧
    (st'.menu = [] → st'.value = st.value ∧ st'.parm = st.parm) := by
  simp only [HoudiniHDAMenu.generate_menu] at h
  split at h
  · exact absurd h (by simp)
  · rename_i ds0 heq
    generalize (if rev = true then ds0.reverse else ds0) = ds1 at h
    generalize List.foldr
      (fun item acc => pyStr (dictGet item name) :: pyStr (dictGet item label) :: acc)
      [] ds1 = menu at h
    split at h
    · rename_i s0 hsel
      split at h
      · rename_i hmem
        injection h with h
        subst h
        refine ⟨?_, ?_, ?_⟩
        · intro s hs _
          rw [hsel] at hs
          injection hs with hs
          subst hs
          simp
        · intro hall _
          exact absurd (by simpa using hmem) (hall s0 hsel)
        · intro hm
          simp only [set_value_menu_eq] at hm
          rw [hm] at hmem
          simp [everyOther] at hmem
      · rename_i hmem
        split at h
        · rename_i hemp
          rw [List.isEmpty_iff] at hemp
          injection h with h
          subst h
          refine ⟨?_, ?_, ?_⟩
          · intro s hs hsm
            rw [hsel] at hs
            injection hs with hs
            subst hs
            simp only [hemp] at hsm
            simp [everyOther] at hsm
          · intro _ hne
            exact absurd hemp hne
          · intro _
            exact ⟨rfl, rfl⟩
        · rename_i hemp
          simp only [Bool.not_eq_true, List.isEmpty_eq_false] at hemp
          injection h with h
          subst h
          refine ⟨?_, ?_, ?_⟩
          · intro s hs hsm
            rw [hsel] at hs
            injection hs with hs
            subst hs
            simp only [set_value_menu_eq] at hsm
            exact absurd hsm hmem
          · intro _ _
            simp
          · intro hm
            simp only [set_value_menu_eq] at hm
            exact absurd hm hemp
    · rename_i hsel
      split at h
      · rename_i hemp
        rw [List.isEmpty_iff] at hemp
        injection h with h
        subst h
        refine ⟨?_, ?_, ?_⟩
        · intro s hs _
          rw [hsel] at hs
          exact Option.noConfusion hs
        · intro _ hne
          exact absurd hemp hne
        · intro _
          exact ⟨rfl, rfl⟩
      · rename_i hemp
        simp only [Bool.not_eq_true, List.isEmpty_eq_false] at hemp
        injection h with h
        subst h
        refine ⟨?_, ?_, ?_⟩
        · intro s hs _
          rw [hsel] at hs
          exact Option.noConfusion hs
        · intro _ _
          simp
        · intro hm
          simp only [set_value_menu_eq] at hm
          exact absurd hm hemp

/-- An editable menu currently showing "5", used to refute C2's empty-list
clause. -/
def menuC2 : MenuState :=
  { parm := some "5", override_parm := some 1, menu := ["5", "five"],
    value := some (.vstr "5"), editable := true, context_value := none,
    legacy_auto := false }

/-- C2 counterexample: regenerating `menuC2` from an empty collection clears
the menu contents but leaves both the in-memory value and the backing parm
at "5" — the selection does not become empty as claimed. -/
theorem generate_menu_empty_keeps_selection_cex :
    HoudiniHDAMenu.generate_menu menuC2 [] "id" "label" false false =
      .ok { menuC2 with menu := [] } ∧
    ({ menuC2 with menu := ([] : List String) }).value = some (.vstr "5") ∧
    ({ menuC2 with menu := ([] : List String) }).parm = some "5" ∧
    ({ menuC2 with menu := ([] : List String) }).value ≠ none := by
  exact ⟨rfl, rfl, rfl, by simp [menuC2]⟩

/-- The single record keeping key "5", for the C2 witness. -/
def dsC2w : List Record := [[("id", .vstr "5"), ("label", .vstr "five")]]

/-- The state `generate_menu` produces from `menuC2` and `dsC2w`. -/
def stC2w : MenuState :=
  match HoudiniHDAMenu.generate_menu menuC2 dsC2w "id" "label" false false with
  | .ok s => s
  | .error _ => menuC2

/-- C2 witness: at the concrete regeneration of `menuC2` from `dsC2w` the
previous selection "5" is among the new names and is preserved. -/
theorem generate_menu_selection_policy_witness :
    stC2w.value = some (.vstr "5") :=
  (generate_menu_selection_policy menuC2 dsC2w "id" "label" false false
    stC2w rfl).1 "5" rfl (by decide)

/-- Filtering records on a key that occurs once (the mapped keys have no
duplicates) keeps exactly the one matching record. -/
theorem filter_key_singleton (nm s : String) (l : List Record)
    (hnd : (l.map fun d => pyStr (dictGet d nm)).Nodup)
    (hm : s ∈ l.map fun d => pyStr (dictGet d nm)) :
    ∃ d, l.filter (fun item => pyStr (dictGet item nm) == s) = [d] ∧
      pyStr (dictGet d nm) = s := by
  induction l with
  | nil => simp at hm
  | cons d0 rest ih =>
    rw [List.map_cons, List.nodup_cons] at hnd
    rw [List.map_cons, List.mem_cons] at hm
    by_cases hk : pyStr (dictGet d0 nm) = s
    · refine ⟨d0, ?_, hk⟩
      rw [List.filter_cons_of_pos (by simp [hk])]
      have hnil : rest.filter (fun item => pyStr (dictGet item nm) == s) = [] := by
        rw [List.filter_eq_nil_iff]
        intro a ha hc
        have hc2 : pyStr (dictGet a nm) = s := by simpa using hc
        apply hnd.1
        rw [hk]
        exact hc2 ▸ List.mem_map_of_mem _ ha
      rw [hnil]
    · have hm2 : s ∈ rest.map fun d => pyStr (dictGet d nm) := by
        rcases hm with h1 | h1
        · exact absurd h1.symm hk
        · exact h1
      obtain ⟨d, hd1, hd2⟩ := ih hnd.2 hm2
      refine ⟨d, ?_, hd2⟩
      rw [List.filter_cons_of_neg (by simp [hk])]
      exact hd1

/-- C3 (amended): a non-editable menu's regeneration filters the records to
the current selection before building entries. With distinct keys and a
non-empty selection that occurs among the records, the result has exactly
one entry, keyed by the selection; with a non-empty selection that matches
no record, the result has no entries at all (not the first record, as
claimed); only with an empty selection does it keep exactly the first
record. -/
theorem generate_menu_non_editable_single (st : MenuState) (ds : List Record)
    (name label : String) (rev force : Bool) (hed : st.editable = false) :
    (∀ s, SGMenu.get_selection st force = some s → s ≠ "" →
      (ds.map fun d => pyStr (dictGet d name)).Nodup →
      s ∈ (ds.map fun d => pyStr (dictGet d name)) →
      (HoudiniHDAMenu.generate_menu st ds name label rev force).map
        (fun st2 => everyOther st2.menu) = .ok [s]) ∧
    (∀ s, SGMenu.get_selection st force = some s → s ≠ "" →
      s ∉ (ds.map fun d => pyStr (dictGet d name)) →
      (HoudiniHDAMenu.generate_menu st ds name label rev force).map
        (fun st2 => st2.menu) = .ok []) ∧
    (selTruthy (SGMenu.get_selection st force) = false →
      ∀ d rest, ds = d :: rest →
      (HoudiniHDAMenu.generate_menu st ds name label rev force).map
        (fun st2 => st2.menu) =
        .ok [pyStr (dictGet d name), pyStr (dictGet d label)]) := by
  refine ⟨?_, ?_, ?_⟩
  · intro s hs hne hnd hmem
    obtain ⟨d, hf, hdk⟩ := filter_key_singleton name s ds hnd hmem
    have hst : selTruthy (SGMenu.get_selection st force) = true := by
      rw [hs]
      simpa [selTruthy] using hne
    cases rev <;>
      simp [HoudiniHDAMenu.generate_menu, hed, hs, selTruthy, hne, hf, hdk,
        everyOther, Option.getD, Except.map]
  · intro s hs hne hmem
    have hst : selTruthy (SGMenu.get_selection st force) = true := by
      rw [hs]
      simpa [selTruthy] using hne
    have hf : ds.filter (fun item => pyStr (dictGet item name) == s) = [] := by
      rw [List.filter_eq_nil_iff]
      intro a ha hc
      have hc2 : pyStr (dictGet a name) = s := by simpa using hc
      exact hmem (hc2 ▸ List.mem_map_of_mem _ ha)
    cases rev <;>
      simp [HoudiniHDAMenu.generate_menu, hed, hs, selTruthy, hne, hf,
        everyOther, Option.getD, Except.map]
  · intro hsf d rest hds
    subst hds
    rcases hsel : SGMenu.get_selection st force with _ | s
    · cases rev <;>
        simp [HoudiniHDAMenu.generate_menu, hed, hsel, selTruthy, everyOther,
          Except.map]
    · have hse : s = "" := by
        rw [hsel] at hsf
        simpa [selTruthy] using hsf
      subst hse
      cases rev <;>
        simp [HoudiniHDAMenu.generate_menu, hed, hsel, selTruthy, everyOther,
          Except.map] <;>
        try (by_cases hcc : "" = pyStr (dictGet d name) <;> simp [hcc])

/-- A non-editable menu whose backing parm holds "zz", used against C3. -/
def menuC3 : MenuState :=
  { parm := some "zz", override_parm := some 1, menu := ["zz", "ZZ"],
    value := some (.vstr "zz"), editable := false, context_value := none,
    legacy_auto := false }

/-- Two input records with keys "1" and "2". -/
def dsC3 : List Record :=
  [[("id", .vstr "1"), ("code", .vstr "a")],
   [("id", .vstr "2"), ("code", .vstr "b")]]

/-- C3 counterexample: a non-editable menu with selection "zz" regenerated
from two records keyed "1" and "2" yields zero entries — not the claimed
single entry keyed by the first record "1". -/
theorem generate_menu_non_editable_cex :
    dsC3.length = 2 ∧
    (HoudiniHDAMenu.generate_menu menuC3 dsC3 "id" "code" false false).map
      (fun st2 => (everyOther st2.menu).length) = .ok 0 ∧
    (HoudiniHDAMenu.generate_menu menuC3 dsC3 "id" "code" false false).map
      (fun st2 => (everyOther st2.menu).length) ≠ .ok 1 := by
  refine ⟨rfl, rfl, fun h => ?_⟩
  rw [show (HoudiniHDAMenu.generate_menu menuC3 dsC3 "id" "code" false false).map
      (fun st2 => (everyOther st2.menu).length) = .ok 0 from rfl] at h
  exact absurd (Except.ok.inj h) (by decide)

/-- A non-editable menu whose backing parm holds "2", for the C3 witness. -/
def menuC3w : MenuState :=
  { parm := some "2", override_parm := some 1, menu := ["2", "b"],
    value := some (.vstr "2"), editable := false, context_value := none,
    legacy_auto := false }

/-- C3 witness: a non-editable regeneration from two distinct-keyed records
containing the selection "2" yields exactly the one entry keyed "2". -/
theorem generate_menu_non_editable_single_witness :
    (HoudiniHDAMenu.generate_menu menuC3w dsC3 "id" "code" false false).map
      (fun st2 => everyOther st2.menu) = .ok ["2"] :=
  (generate_menu_non_editable_single menuC3w dsC3 "id" "code" false false
    rfl).1 "2" rfl (by decide) (by decide) (by decide)

/-! ### Validator ordering lemmas -/

/-- Inserting a plugin permutes a cons. -/
theorem insertPlugin_perm (p : PyblishPlugin) (l : List PyblishPlugin) :
    (insertPlugin p l).Perm (p :: l) := by
  induction l with
  | nil => exact List.Perm.refl _
  | cons q qs ih =>
    unfold insertPlugin
    by_cases h : q.order < p.order
    · rw [if_pos h]
      exact (ih.cons q).trans (List.Perm.swap p q qs)
    · rw [if_neg h]

/-- The execution order is a permutation of the declaration order. -/
theorem executionOrder_perm (l : List PyblishPlugin) :
    (executionOrder l).Perm l := by
  induction l with
  | nil => exact List.Perm.refl _
  | cons p ps ih =>
    exact (insertPlugin_perm p (executionOrder ps)).trans (ih.cons p)

/-- Insertion preserves ascending order keys. -/
theorem insertPlugin_sorted (p : PyblishPlugin) (l : List PyblishPlugin)
    (h : List.Pairwise (fun a b : PyblishPlugin => a.order ≤ b.order) l) :
    List.Pairwise (fun a b : PyblishPlugin => a.order ≤ b.order)
      (insertPlugin p l) := by
  induction l with
  | nil => simp [insertPlugin]
  | cons q qs ih =>
    rw [List.pairwise_cons] at h
    unfold insertPlugin
    by_cases hlt : q.order < p.order
    · rw [if_pos hlt, List.pairwise_cons]
      refine ⟨?_, ih h.2⟩
      intro b hb
      have hb2 : b ∈ p :: qs := (insertPlugin_perm p qs).mem_iff.mp hb
      rcases List.mem_cons.mp hb2 with rfl | hb3
      · exact hlt.le
      · exact h.1 b hb3
    · rw [if_neg hlt, List.pairwise_cons]
      have hpq : p.order ≤ q.order := le_of_not_lt hlt
      refine ⟨?_, List.pairwise_cons.mpr h⟩
      intro b hb
      rcases List.mem_cons.mp hb with rfl | hb2
      · exact hpq
      · exact hpq.trans (h.1 b hb2)

/-- The execution order is ascending in declared order keys. -/
theorem executionOrder_sorted (l : List PyblishPlugin) :
    List.Pairwise (fun a b : PyblishPlugin => a.order ≤ b.order)
      (executionOrder l) := by
  induction l with
  | nil => simp [executionOrder]
  | cons p ps ih => exact insertPlugin_sorted p (executionOrder ps) ih

/-- C7: the four node-validator plugins declare order keys
`ValidatorOrder - 0.1` (node details), `ValidatorOrder` (is-published),
`ValidatorOrder + 0.1` (simple validator) and `ValidatorOrder + 0.2`
(validate-node), so the node-details validator precedes every other
validator; and any declaration order of the plugins keyed
`+0.2 / -0.1 / +0.0` executes as `[-0.1, +0.0, +0.2]`. -/
theorem validator_stage_ordering (ps : List PyblishPlugin)
    (hp : ps.Perm [ValidateNode, NodeDetails, IsPublished]) :
    NodeDetails.order = ValidatorOrder - 0.1 ∧
    IsPublished.order = ValidatorOrder ∧
    SimpleNodeValidator.order = ValidatorOrder + 0.1 ∧
    ValidateNode.order = ValidatorOrder + 0.2 ∧
    NodeDetails.order < IsPublished.order ∧
    IsPublished.order < SimpleNodeValidator.order ∧
    SimpleNodeValidator.order < ValidateNode.order ∧
    (executionOrder ps).map PyblishPlugin.order =
      [ValidatorOrder - 0.1, ValidatorOrder, ValidatorOrder + 0.2] := by
  refine ⟨rfl, rfl, rfl, rfl,
    by norm_num [NodeDetails, IsPublished, ValidatorOrder],
    by norm_num [IsPublished, SimpleNodeValidator, ValidatorOrder],
    by norm_num [SimpleNodeValidator, ValidateNode, ValidatorOrder], ?_⟩
  have hperm : ((executionOrder ps).map PyblishPlugin.order).Perm
      [ValidatorOrder - 0.1, ValidatorOrder, ValidatorOrder + 0.2] := by
    have h1 := (executionOrder_perm ps).map PyblishPlugin.order
    have h2 := hp.map PyblishPlugin.order
    have h3 : ([ValidateNode, NodeDetails, IsPublished].map
        PyblishPlugin.order).Perm
        [ValidatorOrder - 0.1, ValidatorOrder, ValidatorOrder + 0.2] :=
      @List.perm_append_comm _ [ValidateNode.order]
        [NodeDetails.order, IsPublished.order]
    exact h1.trans (h2.trans h3)
  have hsortL : List.Pairwise (fun a b : ℚ => a ≤ b)
      ((executionOrder ps).map PyblishPlugin.order) :=
    (executionOrder_sorted ps).map PyblishPlugin.order (fun a b hab => hab)
  have hsortT : List.Pairwise (fun a b : ℚ => a ≤ b)
      [ValidatorOrder - 0.1, ValidatorOrder, ValidatorOrder + 0.2] := by
    norm_num [List.pairwise_cons, ValidatorOrder]
  exact List.eq_of_perm_of_sorted hperm hsortL hsortT

/-- C7 witness: at the concrete declaration order
is-published, validate-node, node-details — a permutation of the listed
plugins — the execution order comes out ascending. -/
theorem validator_stage_ordering_witness :
    NodeDetails.order = ValidatorOrder - 0.1 ∧
    IsPublished.order = ValidatorOrder ∧
    SimpleNodeValidator.order = ValidatorOrder + 0.1 ∧
    ValidateNode.order = ValidatorOrder + 0.2 ∧
    NodeDetails.order < IsPublished.order ∧
    IsPublished.order < SimpleNodeValidator.order ∧
    SimpleNodeValidator.order < ValidateNode.order ∧
    (executionOrder [IsPublished, ValidateNode, NodeDetails]).map
        PyblishPlugin.order =
      [ValidatorOrder - 0.1, ValidatorOrder, ValidatorOrder + 0.2] :=
  validator_stage_ordering [IsPublished, ValidateNode, NodeDetails]
    (@List.perm_append_comm _ [IsPublished] [ValidateNode, NodeDetails])

/-- C4: the sticky template failure. When the template validation fails,
`update_output_path` records `missing_template` and stops; and once
`missing_template` is set, a subsequent call — under any behaviour of the
external template services — returns immediately with no service call and
no change to the state (in particular output_version, output_path and
output_root are untouched), until the flag is externally cleared. -/
theorem update_output_path_sticky (env env2 : TmplEnv) (st : PubState)
    (h0 : st.missing_template = false)
    (htf : env.template_found (ShotgunUSDPublishNode.selected_template st) = false) :
    ShotgunUSDPublishNode.update_output_path env st =
      .ok ({ st with missing_template := true },
        [.validateTemplate (ShotgunUSDPublishNode.selected_template st)]) ∧
    ShotgunUSDPublishNode.update_output_path env2
        { st with missing_template := true } =
      .ok ({ st with missing_template := true }, []) := by
  constructor
  · simp [ShotgunUSDPublishNode.update_output_path, h0, htf]
  · simp [ShotgunUSDPublishNode.update_output_path]

/-- A template environment in which every template lookup fails. -/
def envC4 : TmplEnv :=
  { template_found := fun _ => false,
    next_version := fun _ _ => 1,
    out_path := fun _ _ _ => "" }

/-- An inert menu state for concrete publish-node states. -/
def menuEmpty : MenuState :=
  { parm := some "", override_parm := some 1, menu := [], value := none,
    editable := true, context_value := none, legacy_auto := false }

/-- A concrete publish-node state with the sticky flag clear. -/
def pubC4 : PubState :=
  { missing_template := false, output_version := none, output_path := none,
    output_root := none, template_menu := menuEmpty, task_menu := menuEmpty,
    shot_task_menu := menuEmpty, asset_templates := [], shot_templates := [],
    shot_id_from_task := fun _ => none }

/-- C4 witness: the sticky behaviour at the concrete state `pubC4` under
`envC4`. -/
theorem update_output_path_sticky_witness :
    ShotgunUSDPublishNode.update_output_path envC4 pubC4 =
      .ok ({ pubC4 with missing_template := true },
        [.validateTemplate (ShotgunUSDPublishNode.selected_template pubC4)]) ∧
    ShotgunUSDPublishNode.update_output_path envC4
        { pubC4 with missing_template := true } =
      .ok ({ pubC4 with missing_template := true }, []) :=
  update_output_path_sticky envC4 envC4 pubC4 rfl rfl

/-- C9: `auto_generate_shot_usd` never performs the shot-USD publish.
Outside shot mode it raises RuntimeError (once the task id has been read
and parsed), the publish statements behind the raise being unreachable; in
shot mode it returns having made no publish call; and any successful return
carries an empty call list. -/
theorem auto_generate_shot_usd_no_publish (st : PubState) :
    (∀ l, ShotgunUSDPublishNode.auto_generate_shot_usd st = .ok l → l = []) ∧
    (∀ t n, ShotgunUSDPublishNode.selected_task st = .ok t →
      pyIntOfSel t = .ok n →
      ShotgunUSDPublishNode.in_shot_mode st = false →
      ShotgunUSDPublishNode.auto_generate_shot_usd st = .error .runtimeError) ∧
    (∀ t n, ShotgunUSDPublishNode.selected_task st = .ok t →
      pyIntOfSel t = .ok n →
      ShotgunUSDPublishNode.in_shot_mode st = true →
      ShotgunUSDPublishNode.auto_generate_shot_usd st = .ok []) := by
  refine ⟨?_, ?_, ?_⟩
  · intro l h
    simp only [ShotgunUSDPublishNode.auto_generate_shot_usd, bind,
      Except.bind] at h
    split at h
    · exact absurd h (by simp)
    · split at h
      · exact absurd h (by simp)
      · split at h
        · exact absurd h (by simp)
        · simp only [pure, Except.pure, Except.ok.injEq] at h
          exact h.symm
  · intro t n ht hn hm
    simp [ShotgunUSDPublishNode.auto_generate_shot_usd, ht, hn, hm, bind,
      Except.bind]
  · intro t n ht hn hm
    simp [ShotgunUSDPublishNode.auto_generate_shot_usd, ht, hn, hm, bind,
      Except.bind, pure, Except.pure]

/-! ### Cascade idempotence machinery (C5) -/

/-- The entry names of a generated flat menu list are the records' mapped
key fields. -/
theorem everyOther_foldr (ds : List Record) (name label : String) :
    everyOther (ds.foldr
      (fun item acc => pyStr (dictGet item name) :: pyStr (dictGet item label) :: acc)
      []) = ds.map (fun d => pyStr (dictGet d name)) := by
  induction ds with
  | nil => rfl
  | cons d rest ih => simp [everyOther, ih]

/-- On an editable node `set_value` writes both the in-memory value and the
parm. -/
theorem set_value_editable_expand (st : MenuState) (v : PyVal)
    (hed : st.editable = true) :
    HoudiniHDAMenu.set_value st v =
      { st with value := some v, parm := some (pyStr v) } := by
  unfold HoudiniHDAMenu.set_value
  simp [hed]

/-- `set_value` is the identity on a state that already holds the value. -/
theorem set_value_self (st : MenuState) (v : PyVal)
    (h1 : st.value = some v) (h2 : st.parm = some (pyStr v))
    (hed : st.editable = true) :
    HoudiniHDAMenu.set_value st v = st := by
  cases st
  unfold HoudiniHDAMenu.set_value
  simp_all

/-- After an editable selection write, the SG selection is either what it
was before the write (the context-derived path, untouched by the write) or
the freshly written parm value. -/
theorem sg_get_selection_after_set (st : MenuState) (force : Bool)
    (m : List String) (s : String) (h1 : s ≠ "") (h2 : s ≠ "None") :
    SGMenu.get_selection
        { st with menu := m, value := some (.vstr s), parm := some s } force
      = SGMenu.get_selection st force ∨
    SGMenu.get_selection
        { st with menu := m, value := some (.vstr s), parm := some s } force
      = some s := by
  unfold SGMenu.get_selection SGMenu.is_overriden
  rcases hcv : st.context_value with _ | v
  · simp [HoudiniHDAMenu.get_selection, h1, h2]
  · rcases hvt : pyTruthy v
    · simp [hvt, HoudiniHDAMenu.get_selection, h1, h2]
    · rcases hov : st.override_parm with _ | w
      · cases force <;> rcases hleg : st.legacy_auto <;>
          simp [hvt, hleg, HoudiniHDAMenu.get_selection, h1, h2]
      · cases force <;> by_cases hw : w == 1 <;>
          simp [hvt, hw, HoudiniHDAMenu.get_selection, h1, h2]

/-- Regenerating an editable menu from no records clears the menu list and
touches nothing else. -/
theorem generate_menu_editable_nil (st : MenuState) (name label : String)
    (force : Bool) (hed : st.editable = true) :
    HoudiniHDAMenu.generate_menu st [] name label false force =
      .ok { st with menu := [] } := by
  rcases hsel : SGMenu.get_selection st force with _ | s <;>
    simp [HoudiniHDAMenu.generate_menu, hed, hsel, everyOther]

@[simp]
theorem pyStr_vstr (s : String) : pyStr (.vstr s) = s := rfl

/-- An editable menu regeneration is a fixed point: regenerating the result
from the same records (whose keys are non-empty and not the literal "None")
changes nothing. -/
theorem generate_menu_fixed (st st' : MenuState) (ds : List Record)
    (name label : String) (force : Bool)
    (hed : st.editable = true)
    (hkeys : ∀ d ∈ ds,
      pyStr (dictGet d name) ≠ "" ∧ pyStr (dictGet d name) ≠ "None")
    (h : HoudiniHDAMenu.generate_menu st ds name label false force = .ok st') :
    HoudiniHDAMenu.generate_menu st' ds name label false force = .ok st' := by
  rcases hds : ds with _ | ⟨d0, rest⟩
  · subst hds
    rw [generate_menu_editable_nil st name label force hed] at h
    injection h with h
    subst h
    rw [generate_menu_editable_nil { st with menu := ([] : List String) }
      name label force hed]
  · subst hds
    have hk0 := hkeys d0 (List.mem_cons_self d0 rest)
    simp only [HoudiniHDAMenu.generate_menu, hed, Bool.not_true,
      Bool.false_eq_true, if_false] at h
    generalize hM : List.foldr (fun item acc =>
      pyStr (dictGet item name) :: pyStr (dictGet item label) :: acc) []
      (d0 :: rest) = M at h
    have hMcons : M = pyStr (dictGet d0 name) :: pyStr (dictGet d0 label) ::
        List.foldr (fun item acc =>
          pyStr (dictGet item name) :: pyStr (dictGet item label) :: acc)
          [] rest := by
      rw [← hM]
      rfl
    have hMempty : M.isEmpty = false := by rw [hMcons]; rfl
    have hMhead : M.headD "" = pyStr (dictGet d0 name) := by
      rw [hMcons]
      rfl
    have hMkeys : everyOther M =
        (d0 :: rest).map (fun d => pyStr (dictGet d name)) := by
      rw [← hM, everyOther_foldr]
    have hk0mem : pyStr (dictGet d0 name) ∈ everyOther M := by
      rw [hMkeys]
      exact List.mem_map_of_mem _ (List.mem_cons_self d0 rest)
    split at h
    · rename_i s0 hsel
      split at h
      · -- selection kept: it is among the new keys
        rename_i hmem
        have hs0 : s0 ≠ "" ∧ s0 ≠ "None" := by
          rw [hMkeys] at hmem
          obtain ⟨d, hd, rfl⟩ := List.mem_map.mp hmem
          exact hkeys d hd
        injection h with h
        rw [set_value_editable_expand _ _ rfl] at h
        simp only [pyStr_vstr] at h
        subst h
        rcases sg_get_selection_after_set st force M s0 hs0.1 hs0.2 with
          h2 | h2 <;> rw [hed] at h2
        all_goals (
          simp only [HoudiniHDAMenu.generate_menu, Bool.not_true,
            Bool.false_eq_true, if_false, hM]
          first
            | rw [hsel] at h2
            | skip
          simp only [h2]
          rw [if_pos hmem, set_value_self]
          · rfl
          · rfl
          · rfl)
      · -- selection dropped: the first new key is written
        rename_i hmem
        split at h
        · rename_i hemp
          simp [hMempty] at hemp
        · rename_i hemp
          injection h with h
          rw [set_value_editable_expand _ _ rfl] at h
          simp only [pyStr_vstr, hMhead] at h
          subst h
          rcases sg_get_selection_after_set st force M
              (pyStr (dictGet d0 name)) hk0.1 hk0.2 with h2 | h2 <;>
            rw [hed] at h2
          · rw [hsel] at h2
            simp only [HoudiniHDAMenu.generate_menu, Bool.not_true,
              Bool.false_eq_true, if_false, hM, h2]
            rw [if_neg hmem]
            simp only [hMempty, Bool.false_eq_true, if_false, hMhead]
            rw [set_value_self]
            · rfl
            · rfl
            · rfl
          · simp only [HoudiniHDAMenu.generate_menu, Bool.not_true,
              Bool.false_eq_true, if_false, hM, h2]
            rw [if_pos hk0mem, set_value_self]
            · rfl
            · rfl
            · rfl
    · -- run 1 selection None: the first new key is written
      rename_i hsel
      split at h
      · rename_i hemp
        simp [hMempty] at hemp
      · rename_i hemp
        injection h with h
        rw [set_value_editable_expand _ _ rfl] at h
        simp only [pyStr_vstr, hMhead] at h
        subst h
        rcases sg_get_selection_after_set st force M
            (pyStr (dictGet d0 name)) hk0.1 hk0.2 with h2 | h2 <;>
          rw [hed] at h2
        · rw [hsel] at h2
          simp only [HoudiniHDAMenu.generate_menu, Bool.not_true,
            Bool.false_eq_true, if_false, hM, h2]
          simp only [hMempty, Bool.false_eq_true, if_false, hMhead]
          rw [set_value_self]
          · rfl
          · rfl
          · rfl
        · simp only [HoudiniHDAMenu.generate_menu, Bool.not_true,
            Bool.false_eq_true, if_false, hM, h2]
          rw [if_pos hk0mem, set_value_self]
          · rfl
          · rfl
          · rfl

/-- A record key field that generates a usable menu entry name: non-empty
and not the literal string "None". -/
@[reducible]
def saneKey (nm : String) (d : Record) : Prop :=
  pyStr (dictGet d nm) ≠ "" ∧ pyStr (dictGet d nm) ≠ "None"

/-- Without a `latest` parm the version-menu update is the identity. -/
theorem update_version_menu_nolatest (env : SGLoadEnv) (st : NodeState)
    (force : Bool) (hl : st.latest_parm = none) :
    ShotgunNode.update_version_menu env st force = .ok st := by
  simp [ShotgunNode.update_version_menu, hl]

/-- One fixed-point step for `update_task_menu` on an editable node without
a `latest` parm: re-running it on its own output changes nothing, and it
only writes the task menu. -/
theorem update_task_menu_fixed (env : SGLoadEnv) (s st1 : NodeState)
    (force : Bool)
    (hl : s.latest_parm = none)
    (hed : s.task_menu.editable = true)
    (hsane : ∀ a b, ∀ d ∈ env.get_asset_tasks a b, saneKey "id" d)
    (h : ShotgunNode.update_task_menu env s force = .ok st1) :
    ShotgunNode.update_task_menu env st1 force = .ok st1 ∧
    st1.asset_type_menu = s.asset_type_menu ∧
    st1.asset_menu = s.asset_menu ∧
    st1.step_menu = s.step_menu ∧
    st1.template_menu = s.template_menu ∧
    st1.shot_task_menu = s.shot_task_menu ∧
    st1.version_menu = s.version_menu ∧
    st1.latest_parm = s.latest_parm := by
  simp only [ShotgunNode.update_task_menu] at h
  split at h
  · exact absurd h (by simp)
  · rename_i sa hpa
    split at h
    · exact absurd h (by simp)
    · rename_i ss hps
      split at h
      · exact absurd h (by simp)
      · rename_i tm hgen
        rw [update_version_menu_nolatest env { s with task_menu := tm }
          force hl] at h
        injection h with h
        subst h
        refine ⟨?_, rfl, rfl, rfl, rfl, rfl, rfl, rfl⟩
        have htasksane : ∀ d ∈ (if optTruthy sa && optTruthy ss then
            env.get_asset_tasks (sa.getD 0) (ss.getD 0) else []),
            pyStr (dictGet d "id") ≠ "" ∧ pyStr (dictGet d "id") ≠ "None" := by
          intro d hd
          by_cases hc : (optTruthy sa && optTruthy ss) = true
          · rw [if_pos hc] at hd
            exact hsane _ _ d hd
          · rw [if_neg hc] at hd
            simp at hd
        have hfix := generate_menu_fixed s.task_menu tm _ "id" "content" force
          hed htasksane hgen
        simp only [ShotgunNode.update_task_menu, hpa, hps, hfix]
        exact update_version_menu_nolatest env { s with task_menu := tm }
          force hl

/-- One fixed-point step for `update_step_menu`. -/
theorem update_step_menu_fixed (env : SGLoadEnv) (s st1 : NodeState)
    (force : Bool)
    (hl : s.latest_parm = none)
    (hedS : s.step_menu.editable = true)
    (hedT : s.task_menu.editable = true)
    (hsaneS : ∀ a, ∀ d ∈ env.get_asset_steps a, saneKey "step.Step.id" d)
    (hsaneT : ∀ a b, ∀ d ∈ env.get_asset_tasks a b, saneKey "id" d)
    (h : ShotgunNode.update_step_menu env s force = .ok st1) :
    ShotgunNode.update_step_menu env st1 force = .ok st1 ∧
    st1.asset_type_menu = s.asset_type_menu ∧
    st1.asset_menu = s.asset_menu ∧
    st1.template_menu = s.template_menu ∧
    st1.shot_task_menu = s.shot_task_menu ∧
    st1.version_menu = s.version_menu ∧
    st1.latest_parm = s.latest_parm := by
  simp only [ShotgunNode.update_step_menu] at h
  split at h
  · exact absurd h (by simp)
  · rename_i sa hpa
    split at h
    · exact absurd h (by simp)
    · rename_i sm hgen
      obtain ⟨hrun2, hf1, hf2, hf3, hf4, hf5, hf6, hf7⟩ :=
        update_task_menu_fixed env { s with step_menu := sm } st1 force hl
          hedT hsaneT h
      have hT1 : st1.asset_type_menu = s.asset_type_menu := hf1
      have hA : st1.asset_menu = s.asset_menu := hf2
      have hstep : st1.step_menu = sm := hf3
      have hTpl : st1.template_menu = s.template_menu := hf4
      have hSh : st1.shot_task_menu = s.shot_task_menu := hf5
      have hV : st1.version_menu = s.version_menu := hf6
      have hL : st1.latest_parm = s.latest_parm := hf7
      have hstepsane : ∀ d ∈ (if optTruthy sa then
          env.get_asset_steps (sa.getD 0) else []),
          pyStr (dictGet d "step.Step.id") ≠ "" ∧
          pyStr (dictGet d "step.Step.id") ≠ "None" := by
        intro d hd
        by_cases hc : optTruthy sa = true
        · rw [if_pos hc] at hd
          exact hsaneS _ d hd
        · rw [if_neg hc] at hd
          simp at hd
      have hfix := generate_menu_fixed s.step_menu sm _ "step.Step.id"
        "step.Step.code" force hedS hstepsane hgen
      refine ⟨?_, hT1, hA, hTpl, hSh, hV, hL⟩
      simp only [ShotgunNode.update_step_menu, hA, hpa, hstep, hfix]
      rw [← hstep, ← hA]
      exact hrun2

/-- One fixed-point step for `update_asset_menu`. -/
theorem update_asset_menu_fixed (env : SGLoadEnv) (s st1 : NodeState)
    (force : Bool)
    (hl : s.latest_parm = none)
    (hedA : s.asset_menu.editable = true)
    (hedS : s.step_menu.editable = true)
    (hedT : s.task_menu.editable = true)
    (hsaneA : ∀ t, ∀ d ∈ env.get_assets t, saneKey "id" d)
    (hsaneS : ∀ a, ∀ d ∈ env.get_asset_steps a, saneKey "step.Step.id" d)
    (hsaneT : ∀ a b, ∀ d ∈ env.get_asset_tasks a b, saneKey "id" d)
    (h : ShotgunNode.update_asset_menu env s force = .ok st1) :
    ShotgunNode.update_asset_menu env st1 force = .ok st1 ∧
    st1.asset_type_menu = s.asset_type_menu ∧
    st1.template_menu = s.template_menu ∧
    st1.shot_task_menu = s.shot_task_menu ∧
    st1.version_menu = s.version_menu ∧
    st1.latest_parm = s.latest_parm := by
  simp only [ShotgunNode.update_asset_menu] at h
  split at h
  · exact absurd h (by simp)
  · rename_i am hgen
    obtain ⟨hrun2, hf1, hf2, hf3, hf4, hf5, hf6⟩ :=
      update_step_menu_fixed env { s with asset_menu := am } st1 force hl
        hedS hedT hsaneS hsaneT h
    have hT1 : st1.asset_type_menu = s.asset_type_menu := hf1
    have hasset : st1.asset_menu = am := hf2
    have hTpl : st1.template_menu = s.template_menu := hf3
    have hSh : st1.shot_task_menu = s.shot_task_menu := hf4
    have hV : st1.version_menu = s.version_menu := hf5
    have hL : st1.latest_parm = s.latest_parm := hf6
    have hassetsane : ∀ d ∈ (if selTruthy
        (SGMenu.get_selection s.asset_type_menu false) then
        env.get_assets ((SGMenu.get_selection s.asset_type_menu false).getD "")
        else []),
        pyStr (dictGet d "id") ≠ "" ∧ pyStr (dictGet d "id") ≠ "None" := by
      intro d hd
      by_cases hc : selTruthy (SGMenu.get_selection s.asset_type_menu false)
          = true
      · rw [if_pos hc] at hd
        exact hsaneA _ d hd
      · rw [if_neg hc] at hd
        simp at hd
    have hfix := generate_menu_fixed s.asset_menu am _ "id" "code" force
      hedA hassetsane hgen
    refine ⟨?_, hT1, hTpl, hSh, hV, hL⟩
    simp only [ShotgunNode.update_asset_menu, hT1, hasset, hfix]
    rw [← hasset, ← hT1]
    exact hrun2

/-- C5 (amended): on an editable node without a `latest` parm, and with the
external data source fixed and returning records whose key fields are
non-empty and never the literal "None", the asset-chain cascade
(`update_asset_types_menu` through `update_task_menu`, version-menu guard
off) is idempotent — re-running it on its own output reproduces that output
exactly, menus and selections included. -/
theorem update_asset_types_menu_idempotent (env : SGLoadEnv)
    (st st1 : NodeState) (force : Bool)
    (hl : st.latest_parm = none)
    (hed1 : st.asset_type_menu.editable = true)
    (hed2 : st.asset_menu.editable = true)
    (hed3 : st.step_menu.editable = true)
    (hed4 : st.task_menu.editable = true)
    (hsane1 : ∀ d ∈ env.get_asset_types, saneKey "name" d)
    (hsane2 : ∀ t, ∀ d ∈ env.get_assets t, saneKey "id" d)
    (hsane3 : ∀ a, ∀ d ∈ env.get_asset_steps a, saneKey "step.Step.id" d)
    (hsane4 : ∀ a b, ∀ d ∈ env.get_asset_tasks a b, saneKey "id" d)
    (h : ShotgunNode.update_asset_types_menu env st force = .ok st1) :
    ShotgunNode.update_asset_types_menu env st1 force = .ok st1 := by
  simp only [ShotgunNode.update_asset_types_menu] at h
  split at h
  · exact absurd h (by simp)
  · rename_i atm hgen
    obtain ⟨hrun2, hf1, hf2, hf3, hf4, hf5⟩ :=
      update_asset_menu_fixed env { st with asset_type_menu := atm } st1 force
        hl hed2 hed3 hed4 hsane2 hsane3 hsane4 h
    have htype : st1.asset_type_menu = atm := hf1
    have hfix := generate_menu_fixed st.asset_type_menu atm
      env.get_asset_types "name" "name" force hed1 hsane1 hgen
    simp only [ShotgunNode.update_asset_types_menu, htype, hfix]
    rw [← htype]
    exact hrun2

/-- A data source with one asset type "char" and nothing below it. -/
def envC5 : SGLoadEnv :=
  { get_asset_types := [[("name", .vstr "char")]],
    get_assets := fun _ => [],
    get_asset_steps := fun _ => [],
    get_asset_tasks := fun _ _ => [],
    get_versions := fun _ => [] }

/-- A non-editable menu with the given backing-parm value and stored menu. -/
def menuNE (p : String) (m : List String) : MenuState :=
  { parm := some p, override_parm := some 1, menu := m, value := none,
    editable := false, context_value := none, legacy_auto := false }

/-- A non-editable node whose asset-type menu still holds a stale entry
"old" with an empty backing parm. -/
def nodeC5 : NodeState :=
  { asset_type_menu := menuNE "" ["old", "Old"],
    asset_menu := menuNE "7" ["7", "Seven"],
    step_menu := menuNE "9" ["9", "Nine"],
    task_menu := menuNE "4" ["4", "Four"],
    template_menu := menuEmpty, shot_task_menu := menuEmpty,
    version_menu := menuEmpty, asset_templates := [], shot_templates := [],
    latest_parm := none }

/-- The first cascade run on `nodeC5`. -/
def runC5one : Except PyErr NodeState :=
  ShotgunNode.update_asset_types_menu envC5 nodeC5 false

/-- The second cascade run, on the first run's output. -/
def runC5two : Except PyErr NodeState :=
  runC5one.bind (fun s => ShotgunNode.update_asset_types_menu envC5 s false)

/-- C5 counterexample: with the external data fixed, the first cascade run
on the non-editable node `nodeC5` empties the asset-type menu (the stale
selection "old" matches nothing), while the second run rebuilds it to
["char", "char"] (the selection, read from the never-written parm, is now
empty, so the first record is kept) — the two runs' menu contents differ. -/
theorem cascade_not_idempotent_cex :
    runC5one.map (fun s => s.asset_type_menu.menu) = .ok [] ∧
    runC5two.map (fun s => s.asset_type_menu.menu) = .ok ["char", "char"] ∧
    runC5one.map (fun s => s.asset_type_menu.menu) ≠
      runC5two.map (fun s => s.asset_type_menu.menu) := by
  refine ⟨rfl, rfl, fun h => ?_⟩
  rw [show runC5one.map (fun s => s.asset_type_menu.menu) = .ok [] from rfl,
    show runC5two.map (fun s => s.asset_type_menu.menu) =
      .ok ["char", "char"] from rfl] at h
  exact absurd (Except.ok.inj h) (by decide)

/-- A data source with one record at every level of the asset chain. -/
def envC5w : SGLoadEnv :=
  { get_asset_types := [[("name", .vstr "char")]],
    get_assets := fun _ => [[("id", .vint 1), ("code", .vstr "tree")]],
    get_asset_steps := fun _ =>
      [[("step.Step.id", .vint 2), ("step.Step.code", .vstr "mod")]],
    get_asset_tasks := fun _ _ => [[("id", .vint 5), ("content", .vstr "main")]],
    get_versions := fun _ => [] }

/-- An editable menu with an empty backing parm. -/
def menuEd : MenuState :=
  { parm := some "", override_parm := some 1, menu := [], value := none,
    editable := true, context_value := none, legacy_auto := false }

/-- An editable node with blank chain menus and no `latest` parm. -/
def nodeC5w : NodeState :=
  { asset_type_menu := menuEd, asset_menu := menuEd, step_menu := menuEd,
    task_menu := menuEd, template_menu := menuEmpty,
    shot_task_menu := menuEmpty, version_menu := menuEmpty,
    asset_templates := [], shot_templates := [], latest_parm := none }

/-- The state the first cascade run produces from `nodeC5w`. -/
def nodeC5w1 : NodeState :=
  match ShotgunNode.update_asset_types_menu envC5w nodeC5w false with
  | .ok s => s
  | .error _ => nodeC5w

/-- C5 witness: on the concrete editable node `nodeC5w` under `envC5w`, the
cascade's output is a fixed point of the cascade. -/
theorem update_asset_types_menu_idempotent_witness :
    ShotgunNode.update_asset_types_menu envC5w nodeC5w1 false =
      .ok nodeC5w1 := by
  refine update_asset_types_menu_idempotent envC5w nodeC5w nodeC5w1 false rfl
    rfl rfl rfl rfl (by decide) ?_ ?_ ?_ rfl
  · intro t
    rw [show envC5w.get_assets t =
      [[("id", PyVal.vint 1), ("code", PyVal.vstr "tree")]] from rfl]
    decide
  · intro a
    rw [show envC5w.get_asset_steps a =
      [[("step.Step.id", PyVal.vint 2), ("step.Step.code", PyVal.vstr "mod")]]
      from rfl]
    decide
  · intro a b
    rw [show envC5w.get_asset_tasks a b =
      [[("id", PyVal.vint 5), ("content", PyVal.vstr "main")]] from rfl]
    decide

end RblPipeHoudini
